import Mathlib

/-!
Verification development for the lexical-model compiler
(`src/tools/index.ts`, class `LexicalModelCompiler`).

The TypeScript pipeline is shallowly embedded as pure Lean functions.
All process-ambient state (the parent-directory listing, the current
working directory, file contents and sizes, the parsed `.model_info`
JSON, the external transpiler / trie-builder / KMP-compiler
collaborators and the clock) is passed in an explicit `Env` record, so
`compile` below is a function of `Env` and the in-memory
`LexicalModelSource` argument, mirroring `compile(modelSource)` at
src/tools/index.ts:19.  File writes are collected in an output list in
program order; JavaScript's exceptional termination (an uncaught
`TypeError`) is a distinguished result constructor.
-/

set_option maxHeartbeats 1000000

namespace LexicalModelTools

/-- JSON value stored in the manifest's `languages` field.  The author
supplies a flat list of language codes; the merge step at
src/tools/index.ts:184 computes `[].concat(kmpJsonData.lexicalModels.map(
(e) => e.languages.map((f) => f.id)))`, which in JavaScript is a list of
per-model lists (one `concat` argument spread, no deep flatten). -/
inductive JsonLanguages where
  | flat (ls : List String)
  | nested (ls : List (List String))
deriving DecidableEq, Repr

/-- The fields of `kmpJsonData` that `compile` reads
(src/tools/index.ts:181-191), as produced by the external
`KmpCompiler.transformKpsToKmpObject` collaborator. -/
structure KmpJsonData where
  infoNameDesc : String
  infoAuthorDesc : String
  infoAuthorUrl : String
  infoVersionDesc : String
  lexicalModelLanguages : List (List String)
  fileNames : List String
deriving DecidableEq, Repr

/-- The `.model_info` manifest (interface `ModelInfoFile`).  Every field
is optional on input (`none` = absent in the JSON); a present-but-empty
string is `some ""` and is falsy for the `||` defaulting below. -/
structure ModelInfo where
  name : Option String := none
  license : Option String := none
  version : Option String := none
  languages : Option JsonLanguages := none
  authorName : Option String := none
  authorEmail : Option String := none
  description : Option String := none
  lastModifiedDate : Option String := none
  packageFilename : Option String := none
  packageFileSize : Option Nat := none
  jsFilename : Option String := none
  jsFileSize : Option Nat := none
  packageIncludes : Option (List String) := none
  minKeymanVersion : Option String := none
  sourcePath : Option String := none
  id : Option String := none
deriving DecidableEq, Repr

/-- The optional `wordBreaking` sub-descriptor of a model source.
`extra` stands for the remaining configuration entries that ride along
into `JSON.stringify(oc.wordBreaking)`. -/
structure WordBreakingSpec where
  sources : Option (List String) := none
  rootClass : Option String := none
  extra : List (String × String) := []
deriving DecidableEq, Repr

/-- `LexicalModelSource`: the author's in-memory model description
(format tag, ordered source-file list, optional root class, optional
word-breaking sub-descriptor).  The format is kept as a raw string so
the `default:` switch branch of src/tools/index.ts:128 is expressible. -/
structure LexicalModelSource where
  format : String
  sources : List String
  rootClass : Option String := none
  wordBreaking : Option WordBreakingSpec := none
deriving DecidableEq, Repr

/-- Which `logError`-and-`return false` site fired.  The human-readable
message is carried alongside; the kind tags the source location. -/
inductive ErrKind where
  | infoFileNotFound
  | invalidModelId
  | modelPathMismatch
  | unimplementedFormat
  | unknownFormat
deriving DecidableEq, Repr

/-- Result of a `compile` run: normal completion, a logged error with
`return false`, or an uncaught JavaScript exception. -/
inductive CompileResult where
  | ok
  | failed (kind : ErrKind) (msg : String)
  | thrown (msg : String)
deriving DecidableEq, Repr

/-- Content of one file write performed by the pipeline.  The KMP
archive's bytes are produced by the external `KmpCompiler.buildKmpFile`
and are opaque here; the manifest is recorded as the structured value
that `JSON.stringify(model_info, null, 2)` would serialize. -/
inductive WriteData where
  | text (content : String)
  | kmpArchive
  | manifest (mi : ModelInfo)
deriving DecidableEq, Repr

/-- Everything observable about one `compile` call: its result, the
file writes in program order, and the state of the `modelSource`
argument after the call (JavaScript objects are passed by reference, so
the callee can mutate the caller's object). -/
structure CompileOutcome where
  result : CompileResult
  writes : List (String × WriteData)
  sourceAfter : LexicalModelSource
deriving DecidableEq, Repr

/-- The ambient environment of one build: directory listings, file
system, parsed inputs and the external collaborators. -/
structure Env where
  parentFiles : List String
  cwd : String
  readFile : String → String
  modelInfo : ModelInfo
  kmpJsonData : KmpJsonData
  fileSize : String → Nat
  nowISOString : String
  transpile : String → String
  buildTrie : List String → String
  stringifyWB : WordBreakingSpec → String

/-- JavaScript `a || b` for an optional string `a`: `undefined` and the
empty string are falsy, everything else wins. -/
def jsOrStr : Option String → String → String
  | some s, d => if s = "" then d else s
  | none, d => d

/-- Is an optional string present and non-empty (JavaScript-truthy)? -/
def isNonBlankStr : Option String → Bool
  | some s => !(s == "")
  | none => false

/-- Does `s` end with `suffix`?  (JavaScript `s.match(/suffix$/)`.)
Implemented on the character lists so the kernel can evaluate it. -/
def strEndsWith (s suffix : String) : Bool :=
  suffix.data.isSuffixOf s.data

/-- Drop the last `n` characters of `s` (the greedy capture of
`/^(.+)\.suffix$/` once the suffix is known to be present). -/
def strDropRight (s : String) (n : Nat) : String :=
  ⟨s.data.take (s.data.length - n)⟩

/-- JavaScript `Array.prototype.join(sep)` / the single-character
`String.prototype.split` below; empty list joins to the empty string. -/
def joinWith (sep : String) : List String → String
  | [] => ""
  | [x] => x
  | x :: xs => x ++ sep ++ joinWith sep xs

/-- JavaScript `String.prototype.split(sep)` for a one-character
separator, on character lists: every occurrence separates, adjacent
separators and string edges produce empty segments. -/
def splitChar (sep : Char) : List Char → List (List Char)
  | [] => [[]]
  | c :: rest =>
    let r := splitChar sep rest
    if c = sep then [] :: r
    else
      match r with
      | h :: t => (c :: h) :: t
      | [] => [[c]]

/-- One segment of the model-id pattern as a character list:
`[a-z_][a-z0-9_]*`. -/
def isIdentSegmentChars : List Char → Bool
  | [] => false
  | c :: cs =>
    (('a' ≤ c && c ≤ 'z') || c = '_') &&
    cs.all (fun d => ('a' ≤ d && d ≤ 'z') || ('0' ≤ d && d ≤ '9') || d = '_')

/-- `MODEL_ID_PATTERN` (src/tools/index.ts:16):
`^[a-z_][a-z0-9_]*\.[a-z_][a-z0-9_]*\.[a-z_][a-z0-9_]*$`.  Since the
segment class excludes dots, a string matches the regex iff splitting
on `.` yields exactly three segments each matching the class. -/
def matchesModelIdPattern (s : String) : Bool :=
  match splitChar '.' s.data with
  | [a, b, c] => isIdentSegmentChars a && isIdentSegmentChars b && isIdentSegmentChars c
  | _ => false

/-- The `/.[ot]tf$/i` font-file test of src/tools/index.ts:190.  The
regex matches iff the name ends in four characters
(any non-line-terminator)(o|t)(t)(f), case-insensitively; JavaScript's
un-flagged `.` excludes `\n`, `\r`, U+2028 and U+2029. -/
def isFontFileName (name : String) : Bool :=
  let cs := name.data.map Char.toLower
  let n := cs.length
  decide (4 ≤ n) &&
  (cs.drop (n - 3) = ['o', 't', 'f'] || cs.drop (n - 3) = ['t', 't', 'f']) &&
  !(['\n', '\r', '\u2028', '\u2029'].contains (cs.getD (n - 4) ' '))

/-- The computed `packageIncludes` value of src/tools/index.ts:190:
`['fonts']` when the KMP file manifest names at least one font file,
else `[]`; always a full overwrite of the author value. -/
def computedIncludes (k : KmpJsonData) : List String :=
  if (k.fileNames.filter isFontFileName).length ≠ 0 then ["fonts"] else []

/-- The discovery-error message of src/tools/index.ts:27. -/
def infoNotFoundMsg : String := "Unable to find .model_info file in parent folder"

/-- The identity-error message of src/tools/index.ts:33-36. -/
def invalidIdMessage (model_id : String) : String :=
  "The model identifier '" ++ model_id ++ "' is invalid.\n" ++
  "Must be a valid alphanumeric identifier in format (author).(bcp_47).(uniq).\n" ++
  "bcp_47 should be underscore (_) separated."

/-- The path-mismatch message of src/tools/index.ts:80. -/
def pathMismatchMessage (authorSeg bcp47Seg model_id : String) : String :=
  "Unexpected model path " ++ authorSeg ++ "." ++ bcp47Seg ++
  ", does not match model id " ++ model_id

/-- `process.cwd().split(path.sep).reverse()` (src/tools/index.ts:78),
with `/` as the path separator. -/
def cwdPaths (cwd : String) : List String :=
  ((splitChar '/' cwd.data).map (fun l => String.mk l)).reverse

/-- The guard of src/tools/index.ts:79:
`paths.length < 4 || paths[0] != 'build' || model_id != paths[2] + '.' + paths[1]`.
JavaScript indexing past the end yields `undefined`, which the `+`
concatenation renders as the string `"undefined"`. -/
def pathCheckFails (model_id : String) (paths : List String) : Bool :=
  decide (paths.length < 4) || paths.getD 0 "undefined" != "build" ||
    model_id != paths.getD 2 "undefined" ++ "." ++ paths.getD 1 "undefined"

/-- Result of the identity-resolution prefix of `compile`
(src/tools/index.ts:23-90): the validated model id plus the group,
author and bcp47 path segments, or the error that aborted the run. -/
inductive ResolveResult where
  | ok (model_id groupPath authorPath bcp47Path : String)
  | err (kind : ErrKind) (msg : String)
  | thrown (msg : String)
deriving DecidableEq, Repr

/-- Identity resolution, src/tools/index.ts:23-90.
`files.find((f) => !!f.match(/\.model_info$/))` takes the FIRST
filename ending in `.model_info`; `model_info_file.match(
/^(.+)\.model_info$/)[1]` is the greedy stem, i.e. everything before
the final 11-character suffix — it requires at least one stem
character, so a parent file named exactly `.model_info` makes the
match `null` and the `[1]` subscript throw a `TypeError`.  The shape
check (line 32) precedes the working-directory check (line 79);
the JSON parse of the info file between them is modelled as the
already-parsed `Env.modelInfo`.  JavaScript indexing past the end of
`paths` yields `undefined`, which stringifies as `"undefined"` in the
template literal of the error message. -/
def resolveIdentity (parentFiles : List String) (cwd : String) : ResolveResult :=
  match parentFiles.find? (fun f => strEndsWith f ".model_info") with
  | none => .err .infoFileNotFound infoNotFoundMsg
  | some model_info_file =>
    if model_info_file.length < 12 then
      .thrown "TypeError: Cannot read property of null"
    else
      let model_id := strDropRight model_info_file 11
      if matchesModelIdPattern model_id then
        let paths := cwdPaths cwd
        if pathCheckFails model_id paths then
          .err .modelPathMismatch
            (pathMismatchMessage (paths.getD 2 "undefined") (paths.getD 1 "undefined") model_id)
        else
          .ok model_id (paths.getD 3 "undefined") (paths.getD 2 "undefined")
            (paths.getD 1 "undefined")
      else
        .err .invalidModelId (invalidIdMessage model_id)

/-- `transpileSources` (src/tools/index.ts:199-204): map the external
TypeScript transpiler over the source texts. -/
def transpileSources (env : Env) (sources : List String) : List String :=
  sources.map env.transpile

/-- The `(function() {` … prologue of src/tools/index.ts:103 (here the
brace is escaped for quoting reasons only; the string is the source's). -/
def scriptHeader : String := "(function() \x7b\n'use strict';\n"

/-- Result of the format switch (src/tools/index.ts:113-131): the
accumulated `func` text, or the error that aborted the run. -/
inductive CodegenResult where
  | ok (func : String)
  | err (kind : ErrKind) (msg : String)
deriving DecidableEq, Repr

/-- The format switch, src/tools/index.ts:113-131.  `sources` is the
list of already-read source texts.  The `fst-foma-1.0` branch stores a
base64 payload into the compiled descriptor's `fst` field before
failing; that store is dead (the descriptor is never used afterwards
on this path) and has no observable effect, so it is not modelled. -/
def formatCodegen (env : Env) (modelSource : LexicalModelSource)
    (sources : List String) : CodegenResult :=
  if modelSource.format = "custom-1.0" then
    .ok (scriptHeader ++ "com.keyman.lexicalModel.register(" ++ ");" ++ "\n" ++
      joinWith "\n" (transpileSources env sources) ++
      "LMLayerWorker.loadModel(new " ++ modelSource.rootClass.getD "undefined" ++ "());\n")
  else if modelSource.format = "fst-foma-1.0" then
    .err .unimplementedFormat ("Unimplemented model format " ++ modelSource.format)
  else if modelSource.format = "trie-1.0" then
    .ok (scriptHeader ++ "var model = \x7b\x7d;\n" ++
      "model.backingData = " ++ env.buildTrie sources ++ ";\n" ++
      "LMLayerWorker.loadModel(new models.WordListModel(model.backingData));\n")
  else
    .err .unknownFormat ("Unknown model format " ++ modelSource.format)

/-- The word-breaking block, src/tools/index.ts:137-156.  Returns the
text appended to `func` and the wordBreaking object as it stands after
the block.  `oc.wordBreaking` is the very object
`modelSource.wordBreaking` (the object literal at line 100 copies the
reference, not the object), so `delete oc.wordBreaking.sources` at
line 147 removes the list from the caller's object as well; the
returned second component is therefore also the post-call value of
`modelSource.wordBreaking`.  `if (wordBreakingSource)` at line 150 is
false both when no custom sources were given (variable `undefined`)
and when the transpiled concatenation is the empty string. -/
def emitWordBreaking (env : Env) (owb : Option WordBreakingSpec) :
    String × Option WordBreakingSpec :=
  match owb with
  | none => ("", none)
  | some wb =>
    match wb.sources with
    | some srcs =>
      let texts := srcs.map (fun s => env.readFile ("../source/" ++ s))
      let wordBreakingSource := joinWith "\n" (transpileSources env texts)
      let wbAfter : WordBreakingSpec := { wb with sources := none }
      if wordBreakingSource ≠ "" then
        ("\n" ++ wordBreakingSource ++ "\n" ++
          "LMLayerWorker.loadWordBreaker(new " ++ wb.rootClass.getD "undefined" ++ "());\n",
          some wbAfter)
      else
        ("LMLayerWorker.loadWordBreaker(new DefaultWordBreaker(" ++
          env.stringifyWB wbAfter ++ "));\n", some wbAfter)
    | none =>
      ("LMLayerWorker.loadWordBreaker(new DefaultWordBreaker(" ++
        env.stringifyWB wb ++ "));\n", some wb)

/-- The manifest merge, src/tools/index.ts:180-194, as a function of
the pre-existing manifest.  `model_info.packageFilename` is assigned at
line 186 before its size is taken at line 187, so the size measured is
that of the file named by the MERGED filename field (the author's value
when non-blank), and likewise for the script file at lines 188-189.
`id`, both sizes and `packageIncludes` are assigned unconditionally;
every other assigned field keeps a truthy author value. -/
def mergeModelInfo (env : Env) (model_id groupPath authorPath bcp47Path : String)
    (mi : ModelInfo) : ModelInfo :=
  let k := env.kmpJsonData
  let kmpFileName := model_id ++ ".model.kmp"
  let modelFileName := model_id ++ ".model.js"
  let packageFilename := jsOrStr mi.packageFilename kmpFileName
  let jsFilename := jsOrStr mi.jsFilename modelFileName
  { mi with
    id := some model_id
    name := some (jsOrStr mi.name k.infoNameDesc)
    authorName := some (jsOrStr mi.authorName k.infoAuthorDesc)
    authorEmail := some (jsOrStr mi.authorEmail k.infoAuthorUrl)
    languages := some (mi.languages.getD (.nested k.lexicalModelLanguages))
    lastModifiedDate := some (jsOrStr mi.lastModifiedDate env.nowISOString)
    packageFilename := some packageFilename
    packageFileSize := some (env.fileSize packageFilename)
    jsFilename := some jsFilename
    jsFileSize := some (env.fileSize jsFilename)
    packageIncludes := some (computedIncludes k)
    version := some (jsOrStr mi.version k.infoVersionDesc)
    minKeymanVersion := some (jsOrStr mi.minKeymanVersion "12.0")
    sourcePath := some (jsOrStr mi.sourcePath
      (groupPath ++ "/" ++ authorPath ++ "/" ++ bcp47Path)) }

/-- `LexicalModelCompiler.compile` (src/tools/index.ts:19-197),
composed from the stages above.  On the success path the writes are, in
program order: the script `{id}.model.js` (line 162), the package
archive `{id}.model.kmp` (line 171), and the merged manifest
`{id}.model_info` (line 196).  `sourceAfter` is the state of the
`modelSource` argument when `compile` returns. -/
def compile (env : Env) (modelSource : LexicalModelSource) : CompileOutcome :=
  match resolveIdentity env.parentFiles env.cwd with
  | .err k m => ⟨.failed k m, [], modelSource⟩
  | .thrown m => ⟨.thrown m, [], modelSource⟩
  | .ok model_id groupPath authorPath bcp47Path =>
    let sources := modelSource.sources.map (fun s => env.readFile ("../source/" ++ s))
    match formatCodegen env modelSource sources with
    | .err k m => ⟨.failed k m, [], modelSource⟩
    | .ok funcBody =>
      let wbRes := emitWordBreaking env modelSource.wordBreaking
      let func := funcBody ++ wbRes.1 ++ "\x7d)();"
      let merged := mergeModelInfo env model_id groupPath authorPath bcp47Path env.modelInfo
      ⟨.ok,
        [(model_id ++ ".model.js", .text func),
         (model_id ++ ".model.kmp", .kmpArchive),
         (model_id ++ ".model_info", .manifest merged)],
        { modelSource with wordBreaking := wbRes.2 }⟩

/-- The input as it stands after a successful run: the word-breaking
sub-descriptor, when present, loses its `sources` list. -/
def eraseWordBreakingSources (ms : LexicalModelSource) : LexicalModelSource :=
  { ms with wordBreaking := ms.wordBreaking.map (fun wb => { wb with sources := none }) }

/-- The manifest written by a run, when one was written. -/
def manifestOf (o : CompileOutcome) : Option ModelInfo :=
  (o.writes.filterMap (fun w =>
    match w.2 with
    | .manifest mi => some mi
    | _ => none)).head?

/-! ### Concrete fixtures used to instantiate the theorems below -/

/-- Package data for a concrete build of model `demo.en.sample`. -/
def testKmp : KmpJsonData :=
  { infoNameDesc := "Sample"
    infoAuthorDesc := "Author"
    infoAuthorUrl := "mailto:a@e.com"
    infoVersionDesc := "1.0"
    lexicalModelLanguages := [["en"]]
    fileNames := ["demo.en.sample.model.js"] }

/-- A concrete build environment: one info file `demo.en.sample.model_info`
in the parent folder, working directory `/g/demo/en.sample/build`, an
empty author manifest, and trivial collaborators. -/
def testEnv : Env :=
  { parentFiles := ["demo.en.sample.model_info"]
    cwd := "/g/demo/en.sample/build"
    readFile := fun _ => "var x = 1;"
    modelInfo := {}
    kmpJsonData := testKmp
    fileSize := fun _ => 42
    nowISOString := "2026-10-11T00:00:00.000Z"
    transpile := fun s => s
    buildTrie := fun _ => "tdata"
    stringifyWB := fun _ => "wbjson" }

/-- A minimal word-list model source. -/
def msTrie : LexicalModelSource := { format := "trie-1.0", sources := ["wordlist.tsv"] }

/-- A custom model source whose word-breaking sub-descriptor lists its
own source file. -/
def msCustomWB : LexicalModelSource :=
  { format := "custom-1.0", sources := ["model.ts"], rootClass := some "MyModel"
    wordBreaking := some { sources := some ["wb.ts"], rootClass := some "WB" } }

/-! ### Helper lemmas -/

theorem strAppend_assoc (a b c : String) : a ++ b ++ c = a ++ (b ++ c) := by
  apply String.ext
  simp only [String.data_append, List.append_assoc]

theorem jsOrStr_idem (o : Option String) (d : String) :
    jsOrStr (some (jsOrStr o d)) d = jsOrStr o d := by
  cases o with
  | none => simp [jsOrStr]
  | some s =>
    by_cases h : s = ""
    · subst h
      simp [jsOrStr]
    · simp [jsOrStr, h]

/-- The word-breaking block leaves the sub-descriptor's `sources` list
deleted exactly when the sub-descriptor is present. -/
theorem emitWordBreaking_snd (env : Env) (owb : Option WordBreakingSpec) :
    (emitWordBreaking env owb).2 = owb.map (fun wb => { wb with sources := none }) := by
  cases owb with
  | none => rfl
  | some wb =>
    cases wb with
    | mk s rc ex =>
      cases s with
      | none => rfl
      | some srcs =>
        unfold emitWordBreaking
        dsimp only
        split <;> rfl

/-- The format switch only emits the two format-error kinds. -/
theorem formatCodegen_err_kind (env : Env) (ms : LexicalModelSource)
    (srcs : List String) (k : ErrKind) (m : String)
    (h : formatCodegen env ms srcs = .err k m) :
    k = .unimplementedFormat ∨ k = .unknownFormat := by
  unfold formatCodegen at h
  split_ifs at h <;> simp_all

/-- Identity resolution reports the discovery error exactly when no
parent filename ends in `.model_info`. -/
theorem resolveIdentity_infoNotFound_iff (files : List String) (cwd : String) :
    resolveIdentity files cwd = .err .infoFileNotFound infoNotFoundMsg ↔
      files.find? (fun f => strEndsWith f ".model_info") = none := by
  cases hf : files.find? (fun f => strEndsWith f ".model_info") with
  | none => simp [resolveIdentity, hf]
  | some f =>
    by_cases h1 : f.length < 12
    · simp [resolveIdentity, hf, h1]
    · by_cases h2 : matchesModelIdPattern (strDropRight f 11) = true
      · by_cases h3 : pathCheckFails (strDropRight f 11) (cwdPaths cwd) = true
        · simp [resolveIdentity, hf, h1, h2, h3]
        · simp [resolveIdentity, hf, h1, h2, h3]
      · simp [resolveIdentity, hf, h1, h2]

/-!
### Claim C1 — frame effect of `compile` on its `modelSource` argument

The claim states that `compile` never mutates the `LexicalModelSource`
input, and in particular that the word-breaking source-file list is
removed only from the compiled descriptor copy.  The code contradicts
this: the object literal at src/tools/index.ts:100 copies the
`wordBreaking` REFERENCE into the compiled descriptor, so the
`delete oc.wordBreaking.sources` at line 147 removes the list from the
caller's object too.
-/

/-- C1 (counterexample): a successful run over a model source whose
word-breaking sub-descriptor lists a source file returns with the
input mutated — the sub-descriptor's `sources` list is gone. -/
theorem claim_C1_counterexample :
    msCustomWB.wordBreaking =
      some { sources := some ["wb.ts"], rootClass := some "WB", extra := [] } ∧
    (compile testEnv msCustomWB).result = .ok ∧
    (compile testEnv msCustomWB).sourceAfter.wordBreaking =
      some { sources := none, rootClass := some "WB", extra := [] } ∧
    (compile testEnv msCustomWB).sourceAfter ≠ msCustomWB :=
  ⟨rfl, rfl, rfl, by decide⟩

/-- C1 (amended): `compile` leaves its input untouched on every failing
run, and on every successful run the only mutation is that the
word-breaking sub-descriptor, when present, loses its `sources` list —
the compiled descriptor aliases the input's sub-descriptor, so the
build-time deletion is visible to the caller. -/
theorem claim_C1_amended (env : Env) (ms : LexicalModelSource) :
    (compile env ms).sourceAfter =
      if (compile env ms).result = .ok then eraseWordBreakingSources ms else ms := by
  cases hr : resolveIdentity env.parentFiles env.cwd with
  | err k m => simp [compile, hr]
  | thrown m => simp [compile, hr]
  | ok mid g a b =>
    cases hc : formatCodegen env ms
        (ms.sources.map (fun s => env.readFile ("../source/" ++ s))) with
    | err k m => simp [compile, hr, hc]
    | ok funcBody =>
      simp [compile, hr, hc, emitWordBreaking_snd, eraseWordBreakingSources]

/-!
### Claim C2 — info-file discovery

The claim states discovery succeeds iff exactly one parent filename
ends in `.model_info`, and that two or more matches fail.  The code
uses `Array.prototype.find`, which silently takes the first match:
with several candidates the build proceeds on the first one.
-/

/-- A parent folder holding TWO `.model_info` files. -/
def testEnvTwoInfos : Env :=
  { testEnv with parentFiles := ["demo.en.sample.model_info", "other.en.x.model_info"] }

/-- C2 (counterexample): with two matching filenames in the parent
folder, compile does not fail — it runs to completion on the first
match (writing `demo.en.sample.model.js`). -/
theorem claim_C2_counterexample :
    (testEnvTwoInfos.parentFiles.filter (fun f => strEndsWith f ".model_info")).length = 2 ∧
    (compile testEnvTwoInfos msTrie).result = .ok ∧
    (compile testEnvTwoInfos msTrie).writes.head?.map Prod.fst =
      some "demo.en.sample.model.js" :=
  ⟨by decide, rfl, rfl⟩

/-- C2 (amended): compile fails with the info-file discovery error iff
NO parent filename ends in `.model_info`; when one or more match, the
first match (in directory order) is used and this error is never
raised. -/
theorem claim_C2_amended (env : Env) (ms : LexicalModelSource) :
    (compile env ms).result = .failed .infoFileNotFound infoNotFoundMsg ↔
      env.parentFiles.find? (fun f => strEndsWith f ".model_info") = none := by
  rw [← resolveIdentity_infoNotFound_iff env.parentFiles env.cwd]
  cases hr : resolveIdentity env.parentFiles env.cwd with
  | err k m => simp [compile, hr]
  | thrown m => simp [compile, hr]
  | ok mid g a b =>
    cases hc : formatCodegen env ms
        (ms.sources.map (fun s => env.readFile ("../source/" ++ s))) with
    | err k m =>
      have hk := formatCodegen_err_kind env ms _ k m hc
      simp only [compile, hr, hc]
      constructor
      · intro hEq
        exfalso
        have : k = ErrKind.infoFileNotFound := by
          cases hEq
          rfl
        rcases hk with h | h <;> simp [this] at h
      · intro hEq
        cases hEq
    | ok funcBody =>
      simp [compile, hr, hc]

/-!
### Claims C3, C4, C9 — the manifest merge
-/

/-- A JavaScript-truthy author value survives the `||` defaulting. -/
theorem jsOrStr_nonblank (o : Option String) (d : String)
    (h : isNonBlankStr o = true) : some (jsOrStr o d) = o := by
  cases o with
  | none => simp [isNonBlankStr] at h
  | some s =>
    simp only [isNonBlankStr, Bool.not_eq_true', beq_eq_false_iff_ne, ne_eq] at h
    simp [jsOrStr, h]

/-- Every field of a manifest is non-blank: strings present and
non-empty, lists present, sizes present and non-zero. -/
def fullyPopulated (mi : ModelInfo) : Bool :=
  isNonBlankStr mi.name && isNonBlankStr mi.license && isNonBlankStr mi.version &&
  mi.languages.isSome && isNonBlankStr mi.authorName && isNonBlankStr mi.authorEmail &&
  isNonBlankStr mi.description && isNonBlankStr mi.lastModifiedDate &&
  isNonBlankStr mi.packageFilename && mi.packageFileSize.getD 0 != 0 &&
  isNonBlankStr mi.jsFilename && mi.jsFileSize.getD 0 != 0 &&
  mi.packageIncludes.isSome && isNonBlankStr mi.minKeymanVersion &&
  isNonBlankStr mi.sourcePath && isNonBlankStr mi.id

/-- A manifest with every field author-supplied and non-blank, whose
`id`, `packageIncludes` and size fields disagree with what the build
would compute. -/
def miFull : ModelInfo :=
  { name := some "Name"
    license := some "mit"
    version := some "1.0.0"
    languages := some (.flat ["en"])
    authorName := some "Auth"
    authorEmail := some "e@x.com"
    description := some "desc"
    lastModifiedDate := some "2020-01-01T00:00:00.000Z"
    packageFilename := some "other.kmp"
    packageFileSize := some 1
    jsFilename := some "other.js"
    jsFileSize := some 1
    packageIncludes := some ["fonts"]
    minKeymanVersion := some "11.0"
    sourcePath := some "x/y/z"
    id := some "a.b.c" }

/-- C3 (counterexample): an author-supplied non-blank `id` and
`packageIncludes` are both overwritten by the merge
(src/tools/index.ts:180 and :190 assign them unconditionally), so they
are further exceptions beyond the two size fields. -/
theorem claim_C3_counterexample :
    isNonBlankStr miFull.id = true ∧
    miFull.packageIncludes = some ["fonts"] ∧
    (mergeModelInfo testEnv "demo.en.sample" "g" "demo" "en.sample" miFull).id ≠ miFull.id ∧
    (mergeModelInfo testEnv "demo.en.sample" "g" "demo" "en.sample" miFull).packageIncludes ≠
      miFull.packageIncludes := by
  refine ⟨by decide, rfl, by decide, by decide⟩

/-- C3 (amended): a non-blank author value is preserved for `name`,
`authorName`, `authorEmail`, `languages`, `version`,
`lastModifiedDate`, `packageFilename`, `jsFilename`,
`minKeymanVersion` and `sourcePath` (and `license` / `description` are
never touched), but besides the two size fields the merge also always
overwrites `id` with the resolved identifier and `packageIncludes`
with the value recomputed from the package file list. -/
theorem claim_C3_amended (env : Env) (model_id g a b : String) (mi : ModelInfo)
    (hname : isNonBlankStr mi.name = true)
    (hauthor : isNonBlankStr mi.authorName = true)
    (hemail : isNonBlankStr mi.authorEmail = true)
    (hlangs : mi.languages.isSome = true)
    (hver : isNonBlankStr mi.version = true)
    (hdate : isNonBlankStr mi.lastModifiedDate = true)
    (hpkg : isNonBlankStr mi.packageFilename = true)
    (hjs : isNonBlankStr mi.jsFilename = true)
    (hmin : isNonBlankStr mi.minKeymanVersion = true)
    (hsrc : isNonBlankStr mi.sourcePath = true) :
    (mergeModelInfo env model_id g a b mi).name = mi.name ∧
    (mergeModelInfo env model_id g a b mi).authorName = mi.authorName ∧
    (mergeModelInfo env model_id g a b mi).authorEmail = mi.authorEmail ∧
    (mergeModelInfo env model_id g a b mi).languages = mi.languages ∧
    (mergeModelInfo env model_id g a b mi).version = mi.version ∧
    (mergeModelInfo env model_id g a b mi).lastModifiedDate = mi.lastModifiedDate ∧
    (mergeModelInfo env model_id g a b mi).packageFilename = mi.packageFilename ∧
    (mergeModelInfo env model_id g a b mi).jsFilename = mi.jsFilename ∧
    (mergeModelInfo env model_id g a b mi).minKeymanVersion = mi.minKeymanVersion ∧
    (mergeModelInfo env model_id g a b mi).sourcePath = mi.sourcePath ∧
    (mergeModelInfo env model_id g a b mi).license = mi.license ∧
    (mergeModelInfo env model_id g a b mi).description = mi.description ∧
    (mergeModelInfo env model_id g a b mi).id = some model_id ∧
    (mergeModelInfo env model_id g a b mi).packageIncludes =
      some (computedIncludes env.kmpJsonData) := by
  obtain ⟨l, hl⟩ := Option.isSome_iff_exists.mp hlangs
  refine ⟨jsOrStr_nonblank _ _ hname, jsOrStr_nonblank _ _ hauthor,
    jsOrStr_nonblank _ _ hemail, ?_, jsOrStr_nonblank _ _ hver,
    jsOrStr_nonblank _ _ hdate, jsOrStr_nonblank _ _ hpkg,
    jsOrStr_nonblank _ _ hjs, jsOrStr_nonblank _ _ hmin,
    jsOrStr_nonblank _ _ hsrc, rfl, rfl, rfl, rfl⟩
  simp [mergeModelInfo, hl]

/-- C3 (witness): the amended preservation theorem instantiated at the
fully populated manifest `miFull`. -/
theorem claim_C3_witness :
    (isNonBlankStr miFull.name && isNonBlankStr miFull.authorName &&
     isNonBlankStr miFull.authorEmail && miFull.languages.isSome &&
     isNonBlankStr miFull.version && isNonBlankStr miFull.lastModifiedDate &&
     isNonBlankStr miFull.packageFilename && isNonBlankStr miFull.jsFilename &&
     isNonBlankStr miFull.minKeymanVersion && isNonBlankStr miFull.sourcePath) = true ∧
    ((mergeModelInfo testEnv "demo.en.sample" "g" "demo" "en.sample" miFull).name =
      miFull.name ∧
     (mergeModelInfo testEnv "demo.en.sample" "g" "demo" "en.sample" miFull).authorName =
      miFull.authorName ∧
     (mergeModelInfo testEnv "demo.en.sample" "g" "demo" "en.sample" miFull).authorEmail =
      miFull.authorEmail ∧
     (mergeModelInfo testEnv "demo.en.sample" "g" "demo" "en.sample" miFull).languages =
      miFull.languages ∧
     (mergeModelInfo testEnv "demo.en.sample" "g" "demo" "en.sample" miFull).version =
      miFull.version ∧
     (mergeModelInfo testEnv "demo.en.sample" "g" "demo" "en.sample" miFull).lastModifiedDate =
      miFull.lastModifiedDate ∧
     (mergeModelInfo testEnv "demo.en.sample" "g" "demo" "en.sample" miFull).packageFilename =
      miFull.packageFilename ∧
     (mergeModelInfo testEnv "demo.en.sample" "g" "demo" "en.sample" miFull).jsFilename =
      miFull.jsFilename ∧
     (mergeModelInfo testEnv "demo.en.sample" "g" "demo" "en.sample" miFull).minKeymanVersion =
      miFull.minKeymanVersion ∧
     (mergeModelInfo testEnv "demo.en.sample" "g" "demo" "en.sample" miFull).sourcePath =
      miFull.sourcePath ∧
     (mergeModelInfo testEnv "demo.en.sample" "g" "demo" "en.sample" miFull).license =
      miFull.license ∧
     (mergeModelInfo testEnv "demo.en.sample" "g" "demo" "en.sample" miFull).description =
      miFull.description ∧
     (mergeModelInfo testEnv "demo.en.sample" "g" "demo" "en.sample" miFull).id =
      some "demo.en.sample" ∧
     (mergeModelInfo testEnv "demo.en.sample" "g" "demo" "en.sample" miFull).packageIncludes =
      some (computedIncludes testEnv.kmpJsonData)) :=
  ⟨by decide,
   claim_C3_amended testEnv "demo.en.sample" "g" "demo" "en.sample" miFull
    (by decide) (by decide) (by decide) (by decide) (by decide) (by decide)
    (by decide) (by decide) (by decide) (by decide)⟩

/-- A build whose author manifest names OTHER package/script files, in
an environment where those files have different sizes than the
artifacts this run writes. -/
def testEnvSizes : Env :=
  { testEnv with
    modelInfo := { packageFilename := some "other.kmp", jsFilename := some "other.js" }
    fileSize := fun n =>
      if n = "other.kmp" then 999 else if n = "other.js" then 777 else 5 }

/-- C4 (counterexample): when the author manifest supplies its own
`packageFilename` / `jsFilename`, the always-recomputed sizes are
measured from THOSE files (src/tools/index.ts:187,189 stat
`model_info.packageFilename` after line 186 kept the author value),
not from the `{identifier}.model.kmp` / `{identifier}.model.js`
artifacts this run wrote, whose sizes here are 5. -/
theorem claim_C4_counterexample :
    (compile testEnvSizes msTrie).result = .ok ∧
    (manifestOf (compile testEnvSizes msTrie)).map (fun m => m.packageFileSize) =
      some (some 999) ∧
    (manifestOf (compile testEnvSizes msTrie)).map (fun m => m.jsFileSize) =
      some (some 777) ∧
    testEnvSizes.fileSize "demo.en.sample.model.kmp" = 5 ∧
    testEnvSizes.fileSize "demo.en.sample.model.js" = 5 :=
  ⟨rfl, rfl, rfl, by decide, by decide⟩

/-- C4 (amended): both size fields are always overwritten, and their
values do not depend on any author-supplied size; but they are the
on-disk sizes of the files named by the MERGED `packageFilename` /
`jsFilename` fields — which are this build's `{identifier}.model.kmp`
and `{identifier}.model.js` only when the author left those filename
fields blank. -/
theorem claim_C4_amended (env : Env) (model_id g a b : String) (mi : ModelInfo) :
    ((mergeModelInfo env model_id g a b mi).packageFileSize =
      some (env.fileSize (jsOrStr mi.packageFilename (model_id ++ ".model.kmp")))) ∧
    ((mergeModelInfo env model_id g a b mi).jsFileSize =
      some (env.fileSize (jsOrStr mi.jsFilename (model_id ++ ".model.js")))) ∧
    (∀ v w : Option Nat,
      (mergeModelInfo env model_id g a b
          { mi with packageFileSize := v, jsFileSize := w }).packageFileSize =
        (mergeModelInfo env model_id g a b mi).packageFileSize ∧
      (mergeModelInfo env model_id g a b
          { mi with packageFileSize := v, jsFileSize := w }).jsFileSize =
        (mergeModelInfo env model_id g a b mi).jsFileSize) ∧
    (isNonBlankStr mi.packageFilename = false →
      (mergeModelInfo env model_id g a b mi).packageFileSize =
        some (env.fileSize (model_id ++ ".model.kmp"))) ∧
    (isNonBlankStr mi.jsFilename = false →
      (mergeModelInfo env model_id g a b mi).jsFileSize =
        some (env.fileSize (model_id ++ ".model.js"))) := by
  refine ⟨rfl, rfl, fun v w => ⟨rfl, rfl⟩, ?_, ?_⟩
  · intro h
    cases hp : mi.packageFilename with
    | none => simp [mergeModelInfo, jsOrStr, hp]
    | some s =>
      rw [hp] at h
      simp only [isNonBlankStr, Bool.not_eq_false', beq_iff_eq] at h
      simp [mergeModelInfo, jsOrStr, hp, h]
  · intro h
    cases hp : mi.jsFilename with
    | none => simp [mergeModelInfo, jsOrStr, hp]
    | some s =>
      rw [hp] at h
      simp only [isNonBlankStr, Bool.not_eq_false', beq_iff_eq] at h
      simp [mergeModelInfo, jsOrStr, hp, h]

/-- C4 (witness): the amended size theorem instantiated at the empty
author manifest, whose blank filename fields make the sizes those of
this build's own artifacts. -/
theorem claim_C4_witness :
    isNonBlankStr ({} : ModelInfo).packageFilename = false ∧
    (mergeModelInfo testEnv "demo.en.sample" "g" "demo" "en.sample" {}).packageFileSize =
      some (testEnv.fileSize ("demo.en.sample" ++ ".model.kmp")) ∧
    (mergeModelInfo testEnv "demo.en.sample" "g" "demo" "en.sample" {}).jsFileSize =
      some (testEnv.fileSize ("demo.en.sample" ++ ".model.js")) :=
  ⟨by decide,
   (claim_C4_amended testEnv "demo.en.sample" "g" "demo" "en.sample" {}).2.2.2.1 (by decide),
   (claim_C4_amended testEnv "demo.en.sample" "g" "demo" "en.sample" {}).2.2.2.2 (by decide)⟩

/-- An environment in which every on-disk file has size 2, disagreeing
with the size 1 recorded in `miFull`. -/
def testEnvSize2 : Env := { testEnv with fileSize := fun _ => 2 }

/-- C9 (counterexample): a fully populated manifest is NOT a fixed
point of the merge — the always-recomputed `packageFileSize` (read
from disk, not trusted from the input) and the unconditionally
assigned `id` both change. -/
theorem claim_C9_counterexample :
    fullyPopulated miFull = true ∧
    (mergeModelInfo testEnvSize2 "demo.en.sample" "g" "demo" "en.sample"
        miFull).packageFileSize ≠ miFull.packageFileSize ∧
    (mergeModelInfo testEnvSize2 "demo.en.sample" "g" "demo" "en.sample" miFull).id ≠
      miFull.id := by
  refine ⟨by decide, by decide, by decide⟩

/-- C9 (amended): the merge is idempotent as a function: re-running it
on its own output, with the same package data, path segments, resolved
identifier, clock and on-disk sizes, reproduces the output exactly —
but an arbitrary fully-populated manifest is not a fixed point, since
`id`, both sizes and `packageIncludes` are recomputed rather than
taken from the input. -/
theorem claim_C9_amended (env : Env) (model_id g a b : String) (mi : ModelInfo) :
    mergeModelInfo env model_id g a b (mergeModelInfo env model_id g a b mi) =
      mergeModelInfo env model_id g a b mi := by
  cases mi
  simp [mergeModelInfo, jsOrStr_idem]

/-!
### Claims C5, C6, C10 — the format code generator and output framing
-/

/-- An FST model source. -/
def msFst : LexicalModelSource := { format := "fst-foma-1.0", sources := ["a.lexc"] }

/-- C5: with format `fst-foma-1.0`, compile never completes normally
and writes nothing; whenever identity resolution passes, the failure
is precisely the unimplemented-format error. -/
theorem claim_C5 (env : Env) (ms : LexicalModelSource)
    (h : ms.format = "fst-foma-1.0") :
    (compile env ms).result ≠ .ok ∧ (compile env ms).writes = [] ∧
    (∀ mid g a b, resolveIdentity env.parentFiles env.cwd = .ok mid g a b →
      (compile env ms).result =
        .failed .unimplementedFormat "Unimplemented model format fst-foma-1.0") := by
  have hc : ∀ srcs, formatCodegen env ms srcs =
      .err .unimplementedFormat "Unimplemented model format fst-foma-1.0" := by
    intro srcs
    unfold formatCodegen
    rw [h, if_neg (by decide), if_pos rfl]
    rfl
  cases hr : resolveIdentity env.parentFiles env.cwd with
  | err k m =>
    exact ⟨by simp [compile, hr], by simp [compile, hr],
      fun mid g a b hok => by cases hok⟩
  | thrown m =>
    exact ⟨by simp [compile, hr], by simp [compile, hr],
      fun mid g a b hok => by cases hok⟩
  | ok mid g a b =>
    refine ⟨by simp [compile, hr, hc], by simp [compile, hr, hc], ?_⟩
    intro _ _ _ _ _
    simp [compile, hr, hc]

/-- C5 (witness): a concrete FST build in an otherwise valid
environment fails as unimplemented with no writes. -/
theorem claim_C5_witness :
    msFst.format = "fst-foma-1.0" ∧
    (compile testEnv msFst).result =
      .failed .unimplementedFormat "Unimplemented model format fst-foma-1.0" ∧
    (compile testEnv msFst).writes = [] :=
  ⟨rfl,
   (claim_C5 testEnv msFst rfl).2.2 "demo.en.sample" "g" "demo" "en.sample" (by decide),
   (claim_C5 testEnv msFst rfl).2.1⟩

/-- C6: for format `custom-1.0`, the script artifact written by a run
that passes identity resolution is exactly the module prologue, one
registration call with an empty argument list, the transpiled source
texts joined in `sources`-list order, the invocation loading a new
instance of the declared root class, the word-breaking section, and
the epilogue. -/
theorem claim_C6 (env : Env) (ms : LexicalModelSource) (mid g a b : String)
    (hr : resolveIdentity env.parentFiles env.cwd = .ok mid g a b)
    (hf : ms.format = "custom-1.0") :
    (compile env ms).result = .ok ∧
    (compile env ms).writes.head? = some (mid ++ ".model.js", .text (
      scriptHeader ++ "com.keyman.lexicalModel.register(" ++ ");" ++ "\n" ++
      joinWith "\n" (transpileSources env
        (ms.sources.map (fun s => env.readFile ("../source/" ++ s)))) ++
      "LMLayerWorker.loadModel(new " ++ ms.rootClass.getD "undefined" ++ "());\n" ++
      (emitWordBreaking env ms.wordBreaking).1 ++ "\x7d)();")) := by
  have hc : formatCodegen env ms
      (ms.sources.map (fun s => env.readFile ("../source/" ++ s))) =
      .ok (scriptHeader ++ "com.keyman.lexicalModel.register(" ++ ");" ++ "\n" ++
        joinWith "\n" (transpileSources env
          (ms.sources.map (fun s => env.readFile ("../source/" ++ s)))) ++
        "LMLayerWorker.loadModel(new " ++ ms.rootClass.getD "undefined" ++ "());\n") := by
    unfold formatCodegen
    rw [hf, if_pos rfl]
  exact ⟨by simp [compile, hr, hc], by simp [compile, hr, hc]⟩

/-- C6 (witness): the custom-format script equation instantiated at a
concrete environment and model source. -/
theorem claim_C6_witness :
    (compile testEnv msCustomWB).result = .ok ∧
    (compile testEnv msCustomWB).writes.head? = some ("demo.en.sample" ++ ".model.js", .text (
      scriptHeader ++ "com.keyman.lexicalModel.register(" ++ ");" ++ "\n" ++
      joinWith "\n" (transpileSources testEnv
        (msCustomWB.sources.map (fun s => testEnv.readFile ("../source/" ++ s)))) ++
      "LMLayerWorker.loadModel(new " ++ msCustomWB.rootClass.getD "undefined" ++ "());\n" ++
      (emitWordBreaking testEnv msCustomWB.wordBreaking).1 ++ "\x7d)();")) :=
  claim_C6 testEnv msCustomWB "demo.en.sample" "g" "demo" "en.sample" (by decide) rfl

/-- Every successful format branch emits a body starting with the
module prologue. -/
theorem formatCodegen_ok_prefix (env : Env) (ms : LexicalModelSource)
    (srcs : List String) (fb : String)
    (h : formatCodegen env ms srcs = .ok fb) :
    ∃ rest, fb = scriptHeader ++ rest := by
  unfold formatCodegen at h
  split_ifs at h <;> cases h
  · simp only [strAppend_assoc]
    exact ⟨_, rfl⟩
  · simp only [strAppend_assoc]
    exact ⟨_, rfl⟩

/-- C10: every script artifact written by a completed run is wrapped
in the strict-mode module prologue and the closing epilogue,
independently of the format branch and of word-breaking. -/
theorem claim_C10 (env : Env) (ms : LexicalModelSource)
    (h : (compile env ms).result = .ok) :
    ∃ name body, (compile env ms).writes.head? =
      some (name, .text (scriptHeader ++ body ++ "\x7d)();")) := by
  cases hr : resolveIdentity env.parentFiles env.cwd with
  | err k m => rw [show (compile env ms).result = .failed k m by simp [compile, hr]] at h; cases h
  | thrown m => rw [show (compile env ms).result = .thrown m by simp [compile, hr]] at h; cases h
  | ok mid g a b =>
    cases hc : formatCodegen env ms
        (ms.sources.map (fun s => env.readFile ("../source/" ++ s))) with
    | err k m =>
      rw [show (compile env ms).result = .failed k m by simp [compile, hr, hc]] at h
      cases h
    | ok funcBody =>
      obtain ⟨rest, hrest⟩ := formatCodegen_ok_prefix env ms _ funcBody hc
      refine ⟨mid ++ ".model.js", rest ++ (emitWordBreaking env ms.wordBreaking).1, ?_⟩
      simp [compile, hr, hc, hrest, strAppend_assoc]

/-- C10 (witness): the wrapper property instantiated at a concrete
successful trie-format run. -/
theorem claim_C10_witness :
    (compile testEnv msTrie).result = .ok ∧
    ∃ name body, (compile testEnv msTrie).writes.head? =
      some (name, .text (scriptHeader ++ body ++ "\x7d)();")) :=
  ⟨rfl, claim_C10 testEnv msTrie rfl⟩

/-!
### Claims C7, C8 — identifier shape and structural path check
-/

/-- C7: whenever the discovered info-file stem violates
`MODEL_ID_PATTERN`, compile fails with the invalid-identifier message
(which spells out the required `(author).(bcp_47).(uniq)` shape) and
writes no file. -/
theorem claim_C7 (env : Env) (ms : LexicalModelSource) (f : String)
    (hf : env.parentFiles.find? (fun x => strEndsWith x ".model_info") = some f)
    (hlen : 12 ≤ f.length)
    (hpat : matchesModelIdPattern (strDropRight f 11) = false) :
    (compile env ms).result =
      .failed .invalidModelId (invalidIdMessage (strDropRight f 11)) ∧
    (compile env ms).writes = [] := by
  have hr : resolveIdentity env.parentFiles env.cwd =
      .err .invalidModelId (invalidIdMessage (strDropRight f 11)) := by
    unfold resolveIdentity
    rw [hf]
    dsimp only
    rw [if_neg (by omega)]
    simp [hpat]
  exact ⟨by simp [compile, hr], by simp [compile, hr]⟩

/-- A parent folder whose single info file has an uppercase letter in
its stem. -/
def testEnvBadId : Env := { testEnv with parentFiles := ["Demo.en.x.model_info"] }

/-- C7 (witness): the invalid-identifier theorem instantiated at the
stem `Demo.en.x` (uppercase letter). -/
theorem claim_C7_witness :
    testEnvBadId.parentFiles.find? (fun x => strEndsWith x ".model_info") =
      some "Demo.en.x.model_info" ∧
    matchesModelIdPattern (strDropRight "Demo.en.x.model_info" 11) = false ∧
    (compile testEnvBadId msTrie).result =
      .failed .invalidModelId (invalidIdMessage (strDropRight "Demo.en.x.model_info" 11)) ∧
    (compile testEnvBadId msTrie).writes = [] :=
  ⟨by decide, by decide,
   (claim_C7 testEnvBadId msTrie "Demo.en.x.model_info" (by decide) (by decide) (by decide)).1,
   (claim_C7 testEnvBadId msTrie "Demo.en.x.model_info" (by decide) (by decide) (by decide)).2⟩

/-- The line-79 guard fails exactly when the split-and-reversed path
has fewer than 4 segments, or its first segment is not `build`, or the
dot-join of segments 2 and 1 differs from the identifier. -/
theorem pathCheckFails_false_iff (mid : String) (paths : List String) :
    pathCheckFails mid paths = false ↔
      (4 ≤ paths.length ∧ paths.getD 0 "undefined" = "build" ∧
       mid = paths.getD 2 "undefined" ++ "." ++ paths.getD 1 "undefined") := by
  simp only [pathCheckFails, Bool.or_eq_false_iff, decide_eq_false_iff_not, not_lt,
    bne_eq_false_iff_eq]
  tauto

/-- C8: for a well-shaped discovered identifier, the structural check
passes (resolution returns the identifier together with path segments
3, 2, 1) iff the reversed separator-split of the working directory has
at least 4 segments, begins with `build`, and has segments 2 and 1
dot-joining to the identifier; and on any mismatch compile fails with
the message naming the path-derived identifier and the model
identifier, writing nothing. -/
theorem claim_C8 (env : Env) (ms : LexicalModelSource) (f : String)
    (hf : env.parentFiles.find? (fun x => strEndsWith x ".model_info") = some f)
    (hlen : 12 ≤ f.length)
    (hpat : matchesModelIdPattern (strDropRight f 11) = true) :
    (resolveIdentity env.parentFiles env.cwd =
        .ok (strDropRight f 11) ((cwdPaths env.cwd).getD 3 "undefined")
          ((cwdPaths env.cwd).getD 2 "undefined") ((cwdPaths env.cwd).getD 1 "undefined") ↔
      (4 ≤ (cwdPaths env.cwd).length ∧
       (cwdPaths env.cwd).getD 0 "undefined" = "build" ∧
       strDropRight f 11 =
         (cwdPaths env.cwd).getD 2 "undefined" ++ "." ++
           (cwdPaths env.cwd).getD 1 "undefined")) ∧
    (pathCheckFails (strDropRight f 11) (cwdPaths env.cwd) = true →
      (compile env ms).result = .failed .modelPathMismatch
        (pathMismatchMessage ((cwdPaths env.cwd).getD 2 "undefined")
          ((cwdPaths env.cwd).getD 1 "undefined") (strDropRight f 11)) ∧
      (compile env ms).writes = []) := by
  constructor
  · by_cases h3 : pathCheckFails (strDropRight f 11) (cwdPaths env.cwd) = true
    · have hr : resolveIdentity env.parentFiles env.cwd =
          .err .modelPathMismatch
            (pathMismatchMessage ((cwdPaths env.cwd).getD 2 "undefined")
              ((cwdPaths env.cwd).getD 1 "undefined") (strDropRight f 11)) := by
        unfold resolveIdentity
        rw [hf]
        dsimp only
        rw [if_neg (by omega)]
        simp [hpat, h3]
      rw [hr, ← pathCheckFails_false_iff]
      simp [h3]
    · have h3f : pathCheckFails (strDropRight f 11) (cwdPaths env.cwd) = false :=
        Bool.not_eq_true _ ▸ Bool.of_not_eq_true h3
      have hr : resolveIdentity env.parentFiles env.cwd =
          .ok (strDropRight f 11) ((cwdPaths env.cwd).getD 3 "undefined")
            ((cwdPaths env.cwd).getD 2 "undefined") ((cwdPaths env.cwd).getD 1 "undefined") := by
        unfold resolveIdentity
        rw [hf]
        dsimp only
        rw [if_neg (by omega)]
        simp [hpat, h3]
      rw [hr, ← pathCheckFails_false_iff, h3f]
      simp
  · intro h3
    have hr : resolveIdentity env.parentFiles env.cwd =
        .err .modelPathMismatch
          (pathMismatchMessage ((cwdPaths env.cwd).getD 2 "undefined")
            ((cwdPaths env.cwd).getD 1 "undefined") (strDropRight f 11)) := by
      unfold resolveIdentity
      rw [hf]
      dsimp only
      rw [if_neg (by omega)]
      simp [hpat, h3]
    exact ⟨by simp [compile, hr], by simp [compile, hr]⟩

/-- A working directory whose innermost segments do not match the
discovered identifier. -/
def testEnvBadPath : Env := { testEnv with cwd := "/g/mismatch/en.other/build" }

/-- C8 (witness): the structural-check theorem instantiated both at
the matching directory (check passes, resolution succeeds) and at a
mismatched directory (compile fails with the naming error, nothing
written). -/
theorem claim_C8_witness :
    (resolveIdentity testEnv.parentFiles testEnv.cwd =
        .ok (strDropRight "demo.en.sample.model_info" 11)
          ((cwdPaths testEnv.cwd).getD 3 "undefined")
          ((cwdPaths testEnv.cwd).getD 2 "undefined")
          ((cwdPaths testEnv.cwd).getD 1 "undefined") ↔
      (4 ≤ (cwdPaths testEnv.cwd).length ∧
       (cwdPaths testEnv.cwd).getD 0 "undefined" = "build" ∧
       strDropRight "demo.en.sample.model_info" 11 =
         (cwdPaths testEnv.cwd).getD 2 "undefined" ++ "." ++
           (cwdPaths testEnv.cwd).getD 1 "undefined")) ∧
    (compile testEnvBadPath msTrie).result = .failed .modelPathMismatch
      (pathMismatchMessage ((cwdPaths testEnvBadPath.cwd).getD 2 "undefined")
        ((cwdPaths testEnvBadPath.cwd).getD 1 "undefined")
        (strDropRight "demo.en.sample.model_info" 11)) ∧
    (compile testEnvBadPath msTrie).writes = [] :=
  ⟨(claim_C8 testEnv msTrie "demo.en.sample.model_info"
      (by decide) (by decide) (by decide)).1,
   ((claim_C8 testEnvBadPath msTrie "demo.en.sample.model_info"
      (by decide) (by decide) (by decide)).2 (by decide)).1,
   ((claim_C8 testEnvBadPath msTrie "demo.en.sample.model_info"
      (by decide) (by decide) (by decide)).2 (by decide)).2⟩

end LexicalModelTools
